import Mathlib

/-!
Shallow embedding of `examples/titanic/titanic_classification.py` (the single
source file of the `bayesianpy` repository) and proofs about it.

The script's own code is glue: a cabin-string feature extractor built on the
regular expression `([A-Z]{1})([0-9]{1,3})`, a small pandas feature-engineering
block, a 3-fold cross-validation loop whose training/inference work is
delegated to the external bayespy/BayesServer library, and one summary log
line.  Library calls (bayespy, sklearn) are modelled as opaque parameters or,
where a claim needs their documented behaviour, as definitions marked
`Modelled from the spec:`.
-/

namespace Titanic

/-- Python runtime values as they occur in this script's data cells and in the
return value of `get_cabin_floor_and_number`: strings, the float NaN used by
pandas for missing values, other floats (as exact rationals, since every float
this script produces is a small integer), ints, and None. -/
inductive PyVal where
  | str (s : String)
  | nan
  | float (q : ℚ)
  | int (n : Int)
  | none
  deriving DecidableEq, Repr

/-- Tests membership of a character in the regex class `[A-Z]` (ASCII 65–90). -/
def upperAZ (c : Char) : Bool := 65 ≤ c.toNat && c.toNat ≤ 90

/-- Tests membership of a character in the regex class `[0-9]` (ASCII 48–57). -/
def digit09 (c : Char) : Bool := 48 ≤ c.toNat && c.toNat ≤ 57

/-- Embeds `re.match(pattern, t)` for the compiled pattern
`([A-Z]{1})([0-9]{1,3})` of line 11: the match is anchored at the start of the
token, `[0-9]{1,3}` greedily takes up to three leading digits, and trailing
characters are permitted.  On success returns the two capture groups
(`match.group(1)`, `match.group(2)`). -/
def patternMatch (t : String) : Option (String × String) :=
  match t.data with
  | [] => Option.none
  | c :: rest =>
    if upperAZ c then
      let ds := (rest.takeWhile digit09).take 3
      if ds.isEmpty then Option.none
      else Option.some (String.mk [c], String.mk ds)
    else Option.none

/-- Helper for `pySplitSpace`: `cur` holds the characters of the current token
in reverse. -/
def splitSpaceAux (cur : List Char) : List Char → List String
  | [] => [String.mk cur.reverse]
  | c :: rest =>
    if c = ' ' then String.mk cur.reverse :: splitSpaceAux [] rest
    else splitSpaceAux (c :: cur) rest

/-- Embeds Python's `cabin.split(" ")` (line 17): the string is cut at every
single space character, and empty tokens (from leading, trailing or repeated
spaces, or from the empty string) are kept. -/
def pySplitSpace (s : String) : List String :=
  splitSpaceAux [] s.data

/-- Embeds the `for cabin in cabins` loop of lines 18–24: scan the tokens left
to right and return the capture groups of the first token that matches;
fall through to `("", np.nan)` (line 25). -/
def scanTokens : List String → PyVal × PyVal
  | [] => (PyVal.str "", PyVal.nan)
  | t :: rest =>
    match patternMatch t with
    | Option.some (f, n) => (PyVal.str f, PyVal.str n)
    | Option.none => scanTokens rest

/-- Embeds `get_cabin_floor_and_number` (lines 13–25): non-strings short-circuit
to `("", np.nan)` (lines 14–15); a string is split on single spaces
(`cabin.split(" ")`, line 17) and the tokens are scanned. -/
def get_cabin_floor_and_number (cabin : PyVal) : PyVal × PyVal :=
  match cabin with
  | PyVal.str s => scanTokens (pySplitSpace s)
  | _ => (PyVal.str "", PyVal.nan)

/-- Interprets a list of decimal digit characters as the natural number Python's
`float()` reads from it (most significant digit first). -/
def digitsVal (ds : List Char) : ℕ :=
  ds.foldl (fun a c => 10 * a + (c.toNat - 48)) 0

/-- Models a pandas dataframe as its ordered list of named columns; each column
is the list of its cell values, row by row. -/
structure DataFrame where
  cols : List (String × List PyVal)
  deriving DecidableEq, Repr

/-- Models column selection `df[name]` / `df.name`: the first column with the
given name, if any. -/
def getCol (df : DataFrame) (name : String) : Option (List PyVal) :=
  (df.cols.find? (fun p => p.1 == name)).map Prod.snd

/-- Models column assignment `df[name] = vals`: overwrite the column in place
when the name exists, otherwise append it on the right. -/
def setCol (df : DataFrame) (name : String) (vals : List PyVal) : DataFrame :=
  if df.cols.any (fun p => p.1 == name) then
    ⟨df.cols.map (fun p => if p.1 == name then (name, vals) else p)⟩
  else ⟨df.cols ++ [(name, vals)]⟩

/-- Tests whether the dataframe has a column with the given name. -/
def hasCol (df : DataFrame) (name : String) : Bool :=
  df.cols.any (fun p => p.1 == name)

/-- Models `df.drop(names, axis=1)`: remove every column whose name is listed;
pandas raises KeyError when one of the names is absent, modelled as `none`. -/
def dropCols (df : DataFrame) (names : List String) : Option DataFrame :=
  if names.all (fun n => hasCol df n) then
    Option.some ⟨df.cols.filter (fun p => !(names.contains p.1))⟩
  else Option.none

/-- Models Python's `float()` on the strings this script feeds it: a nonempty
run of decimal digits parses to its value; the empty string and any string
containing a non-digit character raise ValueError, modelled as `none`.  (The
builtin accepts further numeric formats that this script never produces.) -/
def pyFloatOfString (s : String) : Option ℚ :=
  if !s.data.isEmpty && s.data.all digit09 then Option.some (digitsVal s.data)
  else Option.none

/-- Models `Series.astype(float)` on a single cell of the `CabinNumber` column:
NaN and None become NaN, strings go through `float()`, and numbers are
widened to float. -/
def cellToFloat (v : PyVal) : Option PyVal :=
  match v with
  | PyVal.str s => (pyFloatOfString s).map (fun q => PyVal.float q)
  | PyVal.nan => Option.some PyVal.nan
  | PyVal.float q => Option.some (PyVal.float q)
  | PyVal.int n => Option.some (PyVal.float (n : ℚ))
  | PyVal.none => Option.some PyVal.nan

/-- Models `Series.replace("", np.nan)` on a single cell of the `Floor`
column (line 33). -/
def replaceEmptyWithNaN (v : PyVal) : PyVal :=
  if v = PyVal.str "" then PyVal.nan else v

/-- The float cell that `astype(float)` produces from the second component of a
`get_cabin_floor_and_number` result (a digit string or NaN). -/
def numFloat (v : PyVal) : PyVal :=
  match (get_cabin_floor_and_number v).2 with
  | PyVal.str s => PyVal.float (digitsVal s.data)
  | _ => PyVal.nan

/-- Embeds the feature-engineering block of `main` (lines 31–34):
`zip(*titanic.Cabin.map(get_cabin_floor_and_number))` builds the `Floor` and
`CabinNumber` columns row-wise from `Cabin` (the tuple unpacking of `zip(*...)`
raises ValueError on an empty column, modelled as `none`); `CabinNumber` is
cast to float; empty strings in `Floor` are replaced by NaN; and the columns
`Cabin`, `Ticket`, `Name`, `PassengerId` are dropped. -/
def featureEngineer (df : DataFrame) : Option DataFrame :=
  match getCol df "Cabin" with
  | Option.none => Option.none
  | Option.some cab =>
    if cab.isEmpty then Option.none
    else
      let pairs := cab.map get_cabin_floor_and_number
      let df1 := setCol df "Floor" (pairs.map Prod.fst)
      let df2 := setCol df1 "CabinNumber" (pairs.map Prod.snd)
      match (getCol df2 "CabinNumber").getD [] |>.mapM cellToFloat with
      | Option.none => Option.none
      | Option.some nums =>
        let df3 := setCol df2 "CabinNumber" nums
        let df4 := setCol df3 "Floor" (((getCol df3 "Floor").getD []).map replaceEmptyWithNaN)
        dropCols df4 ["Cabin", "Ticket", "Name", "PassengerId"]

/-- Specifies the claimed output of the feature-engineering step on a dataframe
whose `Cabin` column holds `cab`: the non-dropped columns of `df` in order,
followed by the two new columns `Floor` (row-wise floors, empty strings
replaced by NaN) and `CabinNumber` (row-wise numbers cast to float). -/
def engineeredSpec (df : DataFrame) (cab : List PyVal) : DataFrame :=
  ⟨df.cols.filter
      (fun p => !((["Cabin", "Ticket", "Name", "PassengerId"] : List String).contains p.1)) ++
    [("Floor", cab.map (fun v => replaceEmptyWithNaN (get_cabin_floor_and_number v).1)),
     ("CabinNumber", cab.map numFloat)]⟩

/-- Models the fold sizes of `sklearn.cross_validation.KFold(n, n_folds=k)`:
the first `n % k` folds get `n / k + 1` test rows, the rest get `n / k`. -/
def foldSizes (n k : ℕ) : List ℕ :=
  (List.range k).map (fun i => n / k + if i < n % k then 1 else 0)

/-- Helper for `kfoldSplits`: cut consecutive test chunks of the given sizes
out of the (shuffled) index list, pairing each with the remaining indexes as
the train set; `start` is the offset of the next chunk. -/
def splitsAux (idxs : List ℕ) (start : ℕ) : List ℕ → List (List ℕ × List ℕ)
  | [] => []
  | s :: rest =>
    (idxs.take start ++ idxs.drop (start + s), (idxs.drop start).take s) ::
      splitsAux idxs (start + s) rest

/-- Models iteration over `KFold(n, n_folds=k, shuffle=True)`: `idxs` is the
shuffled array of row indexes (the shuffle itself is a parameter of the model);
each fold yields a `(train_indexes, test_indexes)` pair. -/
def kfoldSplits (idxs : List ℕ) (k : ℕ) : List (List ℕ × List ℕ) :=
  splitsAux idxs 0 (foldSizes idxs.length k)

/-- The `k_folds` constant of line 65. -/
def k_folds : ℕ := 3

/-- Modelled from the spec: `sklearn.metrics.accuracy_score`, the off-the-shelf
accuracy metric — the fraction of positions at which the prediction equals the
truth. -/
def accuracy_score (yPred yTrue : List PyVal) : ℚ :=
  if yTrue.length = 0 then 0
  else ((yPred.zip yTrue).countP (fun p => p.1 == p.2) : ℚ) / (yTrue.length : ℚ)

/-- Selects the rows of a column at the given index list (`df.iloc[indexes]`
restricted to one column); an out-of-range index reads as NaN. -/
def colAt (col : List PyVal) (idxs : List ℕ) : List PyVal :=
  idxs.map (fun i => col.getD i PyVal.nan)

/-- Embeds the cross-validation loop of lines 68–86: for each
`(train_indexes, test_indexes)` pair, accumulate the `accuracy_score` of the
predicted `Survived_maxlikelihood` column against the true `Survived` values of
the test rows. -/
def cvScore (predict : List ℕ → List ℕ → List PyVal) (survived : List PyVal)
    (splits : List (List ℕ × List ℕ)) : ℚ :=
  splits.foldl (fun s p => s + accuracy_score (predict p.1 p.2) (colAt survived p.2)) 0

/-- The per-fold accuracy of the script, as a function of one
`(train_indexes, test_indexes)` pair: train the mixture template on the train
rows, query the most likely `Survived` state on the test rows, and score the
prediction against the true `Survived` values there. -/
def foldAccuracyOf (predict : List ℕ → List ℕ → List PyVal) (survived : List PyVal)
    (p : List ℕ × List ℕ) : ℚ :=
  accuracy_score (predict p.1 p.2) (colAt survived p.2)

/-- The bayespy/BayesServer operations `main` calls, kept opaque over an
abstract type `Net` of Java network objects: the `AutoStructure` template
(line 56, created at line 59 and never used afterwards), the
`MixtureNaiveBayes` template (line 62), `NetworkModel(...).train()` on the
train-index subset returning the trained network (lines 70–76), and
`NetworkModel(trained, subset).batch_query(QueryMostLikelyState("Survived"))`
on the test-index subset returning the predicted column (lines 79–83). -/
structure LibOps (Net : Type) where
  autoNetwork : Net
  mixtureTemplate : Net
  trainOn : Net → List ℕ → Net
  mostLikelySurvived : Net → List ℕ → List PyVal

/-- The per-fold pipeline the script builds from the library calls: train the
mixture template on the train rows, then query the most likely `Survived`
state on the test rows. -/
def predictOf {Net : Type} (lib : LibOps Net) : List ℕ → List ℕ → List PyVal :=
  fun tr te => lib.mostLikelySurvived (lib.trainOn lib.mixtureTemplate tr) te

/-- Python logging levels used by the script. -/
inductive Level where
  | debug
  | info
  deriving DecidableEq, Repr

/-- Embeds the observable behaviour of `main` after the CSV read (lines 31–89),
as a function of the loaded dataframe: feature engineering, 3-fold
cross-validation over the shuffled index list `perm`, and the single summary
log record of line 89.  `fmt` is Python's float-to-string conversion used by
`str.format`, kept opaque.  Returns the average score together with the list
of log records the script itself emits, or `none` where the Python code would
raise. -/
def mainRun {Net : Type} (fmt : ℚ → String) (lib : LibOps Net) (df : DataFrame)
    (perm : List ℕ) : Option (ℚ × List (Level × String)) :=
  match featureEngineer df with
  | Option.none => Option.none
  | Option.some t =>
    match getCol t "Survived" with
    | Option.none => Option.none
    | Option.some surv =>
      let score := cvScore (predictOf lib) surv (kfoldSplits perm k_folds)
      let avg := score / (k_folds : ℚ)
      Option.some (avg,
        [(Level.info,
          "Average score was " ++ fmt avg ++ ". Baseline accuracy is about 0.61.")])

/-- Modelled from the spec: `bayespy.utils.get_path_to_parent_dir` (line 28),
whose source is not in this repository — it returns the path of the directory
containing the given file, i.e. everything before the last `/`. -/
def get_path_to_parent_dir (file : String) : String :=
  String.mk (((file.data.reverse.dropWhile (fun c => c ≠ '/')).drop 1).reverse)

/-- Tests whether a path string begins with the separator `/`. -/
def headIsSlash (s : String) : Bool :=
  match s.data with
  | c :: _ => c == '/'
  | [] => false

/-- Tests whether a path string ends with the separator `/`. -/
def lastIsSlash (s : String) : Bool :=
  match s.data.getLast? with
  | Option.some c => c == '/'
  | Option.none => false

/-- Models `os.path.join(a, b)` for the arguments the script uses: an absolute
`b` replaces `a`; otherwise `b` is appended to `a` with a `/` separator unless
`a` is empty or already ends with one. -/
def joinPath (a b : String) : String :=
  if headIsSlash b then b
  else if a.data.isEmpty || lastIsSlash a then a ++ b
  else a ++ "/" ++ b

/-- The CSV path `main` reads (line 29): `data/train.csv` joined to the
directory containing the script file. -/
def mainCsvPath (scriptFile : String) : String :=
  joinPath (get_path_to_parent_dir scriptFile) "data/train.csv"

/-- Embeds `main` from the top (lines 28–29): read the CSV at `mainCsvPath`
(`readCSV` models `pd.read_csv` as an opaque function from the path to the
loaded dataframe) and run everything else on that single dataframe. -/
def scriptMain {Net : Type} (readCSV : String → DataFrame) (scriptFile : String)
    (fmt : ℚ → String) (lib : LibOps Net) (perm : List ℕ) :
    Option (ℚ × List (Level × String)) :=
  mainRun fmt lib (readCSV (mainCsvPath scriptFile)) perm

end Titanic

namespace Titanic

example : get_cabin_floor_and_number (PyVal.str "C85") = (PyVal.str "C", PyVal.str "85") := by decide
example : get_cabin_floor_and_number (PyVal.str "B51 B53 B55") = (PyVal.str "B", PyVal.str "51") := by decide
example : get_cabin_floor_and_number (PyVal.str "F G73") = (PyVal.str "G", PyVal.str "73") := by decide
example : get_cabin_floor_and_number (PyVal.str "A1234") = (PyVal.str "A", PyVal.str "123") := by decide
example : get_cabin_floor_and_number (PyVal.str "") = (PyVal.str "", PyVal.nan) := by decide
example : get_cabin_floor_and_number PyVal.nan = (PyVal.str "", PyVal.nan) := by decide
example : get_cabin_floor_and_number (PyVal.str "D") = (PyVal.str "", PyVal.nan) := by decide

theorem patternMatch_nil {t : String} (hd : t.data = []) :
    patternMatch t = Option.none := by
  unfold patternMatch
  rw [hd]

theorem patternMatch_cons {t : String} {c : Char} {rest : List Char}
    (hd : t.data = c :: rest) :
    patternMatch t =
      (if upperAZ c then
        (if ((rest.takeWhile digit09).take 3).isEmpty then Option.none
         else Option.some (String.mk [c], String.mk ((rest.takeWhile digit09).take 3)))
       else Option.none) := by
  unfold patternMatch
  rw [hd]

theorem patternMatch_some {t f n : String}
    (h : patternMatch t = Option.some (f, n)) :
    (∃ c, f = String.mk [c] ∧ upperAZ c = true) ∧
    ∃ ds, n = String.mk ds ∧ ds ≠ [] ∧ ds.length ≤ 3 ∧ ∀ c ∈ ds, digit09 c = true := by
  rcases hd : t.data with _ | ⟨c, rest⟩
  · rw [patternMatch_nil hd] at h
    exact absurd h (by simp)
  · rw [patternMatch_cons hd] at h
    by_cases hu : upperAZ c
    · rw [if_pos hu] at h
      by_cases he : ((rest.takeWhile digit09).take 3).isEmpty
      · rw [if_pos he] at h
        exact absurd h (by simp)
      · rw [if_neg he] at h
        injection h with h2
        injection h2 with hf hn
        subst hf
        subst hn
        refine ⟨⟨c, rfl, hu⟩, (rest.takeWhile digit09).take 3, rfl, ?_, ?_, ?_⟩
        · intro hnil
          rw [hnil] at he
          exact he rfl
        · rw [List.length_take]
          exact Nat.min_le_left _ _
        · intro x hx
          exact List.mem_takeWhile_imp (List.mem_of_mem_take hx)
    · rw [if_neg hu] at h
      exact absurd h (by simp)

theorem patternMatch_isSome_iff (t : String) :
    (patternMatch t).isSome = true ↔
      ∃ c d rest, t.data = c :: d :: rest ∧ upperAZ c = true ∧ digit09 d = true := by
  rcases hd : t.data with _ | ⟨c, rest⟩
  · rw [patternMatch_nil hd]
    simp [hd]
  · rw [patternMatch_cons hd]
    by_cases hu : upperAZ c
    · rw [if_pos hu]
      rcases hr : rest with _ | ⟨d, r2⟩
      · simp [hd, hr]
      · by_cases hdg : digit09 d
        · constructor
          · intro _
            exact ⟨c, d, r2, rfl, hu, hdg⟩
          · intro _
            simp [List.takeWhile_cons, hdg]
        · constructor
          · intro hsome
            simp [List.takeWhile_cons, hdg] at hsome
          · rintro ⟨c2, d2, rest2, heq, hu2, hd2⟩
            injection heq with h1 h2
            injection h2 with h3 h4
            subst h1
            subst h3
            exact absurd hd2 hdg
    · rw [if_neg hu]
      constructor
      · intro hsome
        simp at hsome
      · rintro ⟨c2, d2, rest2, heq, hu2, hd2⟩
        injection heq with h1 h2
        subst h1
        exact absurd hu2 hu

theorem scanTokens_of_all_none {ts : List String}
    (h : ∀ t ∈ ts, patternMatch t = Option.none) :
    scanTokens ts = (PyVal.str "", PyVal.nan) := by
  induction ts with
  | nil => rfl
  | cons t rest ih =>
    have ht := h t (List.mem_cons_self t rest)
    rw [scanTokens, ht]
    exact ih (fun x hx => h x (List.mem_cons_of_mem _ hx))

theorem scanTokens_nan_imp_all_none {ts : List String}
    (h : scanTokens ts = (PyVal.str "", PyVal.nan)) :
    ∀ t ∈ ts, patternMatch t = Option.none := by
  induction ts with
  | nil => intro t ht; cases ht
  | cons t rest ih =>
    intro x hx
    cases hpm : patternMatch t with
    | some p =>
      obtain ⟨f, n⟩ := p
      rw [scanTokens, hpm] at h
      simp at h
    | none =>
      rw [scanTokens, hpm] at h
      rcases List.mem_cons.mp hx with hx0 | hxr
      · rw [hx0]; exact hpm
      · exact ih h x hxr

theorem scanTokens_first {ts : List String} {i : ℕ} {f n : String}
    (hi : i < ts.length) (hm : patternMatch (ts.getD i "") = Option.some (f, n))
    (hb : ∀ j, j < i → patternMatch (ts.getD j "") = Option.none) :
    scanTokens ts = (PyVal.str f, PyVal.str n) := by
  induction ts generalizing i with
  | nil => exact absurd hi (Nat.not_lt_zero i)
  | cons t rest ih =>
    cases i with
    | zero =>
      rw [List.getD_cons_zero] at hm
      rw [scanTokens, hm]
    | succ i =>
      have h0 := hb 0 (Nat.succ_pos i)
      rw [List.getD_cons_zero] at h0
      rw [scanTokens, h0]
      rw [List.getD_cons_succ] at hm
      exact ih (Nat.lt_of_succ_lt_succ hi) hm
        (fun j hj => by
          have := hb (j + 1) (Nat.succ_lt_succ hj)
          rwa [List.getD_cons_succ] at this)

theorem scanTokens_cases (ts : List String) :
    scanTokens ts = (PyVal.str "", PyVal.nan) ∨
      ∃ t f n, t ∈ ts ∧ patternMatch t = Option.some (f, n) ∧
        scanTokens ts = (PyVal.str f, PyVal.str n) := by
  induction ts with
  | nil => exact Or.inl rfl
  | cons t rest ih =>
    cases hpm : patternMatch t with
    | some p =>
      obtain ⟨f, n⟩ := p
      exact Or.inr ⟨t, f, n, List.mem_cons_self t rest, hpm, by rw [scanTokens, hpm]⟩
    | none =>
      rcases ih with hnan | ⟨x, f, n, hx, hxm, hsc⟩
      · exact Or.inl (by rw [scanTokens, hpm]; exact hnan)
      · exact Or.inr ⟨x, f, n, List.mem_cons_of_mem _ hx, hxm, by rw [scanTokens, hpm]; exact hsc⟩

/-- C1: `get_cabin_floor_and_number` splits its string input on single spaces
and scans the tokens left to right; for the first token whose prefix matches
one uppercase letter followed by one to three digits (trailing characters
permitted), it returns that letter and that digit group; if no token matches,
it returns `("", NaN)`. -/
theorem cabin_extraction_first_match (s : String) :
    (get_cabin_floor_and_number (PyVal.str s) = (PyVal.str "", PyVal.nan) ↔
      ∀ t ∈ pySplitSpace s, patternMatch t = Option.none) ∧
    (∀ i f n, i < (pySplitSpace s).length →
      patternMatch ((pySplitSpace s).getD i "") = Option.some (f, n) →
      (∀ j, j < i → patternMatch ((pySplitSpace s).getD j "") = Option.none) →
      get_cabin_floor_and_number (PyVal.str s) = (PyVal.str f, PyVal.str n)) ∧
    (∀ t : String, (patternMatch t).isSome = true ↔
      ∃ c d rest, t.data = c :: d :: rest ∧ upperAZ c = true ∧ digit09 d = true) := by
  refine ⟨⟨fun h => scanTokens_nan_imp_all_none h, fun h => scanTokens_of_all_none h⟩,
    fun i f n hi hm hb => scanTokens_first hi hm hb,
    patternMatch_isSome_iff⟩

/-- Witness for C1 at the concrete cabin string `"X A12 B3"`: the first token
has no digits, the second matches with groups `A` and `12`. -/
theorem cabin_extraction_first_match_witness :
    get_cabin_floor_and_number (PyVal.str "X A12 B3") = (PyVal.str "A", PyVal.str "12") := by
  refine (cabin_extraction_first_match "X A12 B3").2.1 1 "A" "12" (by decide) (by decide) ?_
  intro j hj
  have hj0 : j = 0 := Nat.lt_one_iff.mp hj
  subst hj0
  decide

/-- C4: every non-string input (NaN, None, a number) makes
`get_cabin_floor_and_number` return `("", NaN)` without the regular expression
ever being applied: the `isinstance` guard of lines 14–15 short-circuits. -/
theorem non_string_cabin (v : PyVal) (h : ∀ s, v ≠ PyVal.str s) :
    get_cabin_floor_and_number v = (PyVal.str "", PyVal.nan) := by
  cases v with
  | str s => exact absurd rfl (h s)
  | nan => rfl
  | float q => rfl
  | int n => rfl
  | none => rfl

/-- Witness for C4 at the concrete non-string input NaN (the pandas value for
a missing `Cabin` cell). -/
theorem non_string_cabin_witness :
    get_cabin_floor_and_number PyVal.nan = (PyVal.str "", PyVal.nan) :=
  non_string_cabin PyVal.nan (fun _ h => PyVal.noConfusion h)

theorem foldl_digits_lt {ds : List Char} (h : ∀ c ∈ ds, digit09 c = true) :
    ∀ a : ℕ, ds.foldl (fun a c => 10 * a + (c.toNat - 48)) a < (a + 1) * 10 ^ ds.length := by
  induction ds with
  | nil =>
    intro a
    simp
  | cons c rest ih =>
    intro a
    have hc : c.toNat - 48 ≤ 9 := by
      have := h c (List.mem_cons_self c rest)
      simp [digit09, Bool.and_eq_true, decide_eq_true_iff] at this
      omega
    have hrec := ih (fun x hx => h x (List.mem_cons_of_mem _ hx)) (10 * a + (c.toNat - 48))
    simp only [List.foldl_cons, List.length_cons]
    refine lt_of_lt_of_le hrec ?_
    have h1 : 10 * a + (c.toNat - 48) + 1 ≤ (a + 1) * 10 := by omega
    calc (10 * a + (c.toNat - 48) + 1) * 10 ^ rest.length
        ≤ ((a + 1) * 10) * 10 ^ rest.length := Nat.mul_le_mul_right _ h1
      _ = (a + 1) * 10 ^ (rest.length + 1) := by ring

theorem digitsVal_le_999 {ds : List Char} (h : ∀ c ∈ ds, digit09 c = true)
    (hlen : ds.length ≤ 3) : digitsVal ds ≤ 999 := by
  have h1 : digitsVal ds < 1 * 10 ^ ds.length := foldl_digits_lt h 0
  have h2 : (10 : ℕ) ^ ds.length ≤ 1000 := by
    calc (10 : ℕ) ^ ds.length ≤ 10 ^ 3 := Nat.pow_le_pow_right (by norm_num) hlen
      _ = 1000 := by norm_num
  omega

theorem get_cabin_cases (v : PyVal) :
    get_cabin_floor_and_number v = (PyVal.str "", PyVal.nan) ∨
      ∃ c ds, get_cabin_floor_and_number v = (PyVal.str (String.mk [c]), PyVal.str (String.mk ds)) ∧
        upperAZ c = true ∧ ds ≠ [] ∧ ds.length ≤ 3 ∧ ∀ x ∈ ds, digit09 x = true := by
  cases v with
  | str s =>
    rcases scanTokens_cases (pySplitSpace s) with hnan | ⟨t, f, n, ht, hm, hsc⟩
    · exact Or.inl hnan
    · obtain ⟨⟨c, hfc, hu⟩, ds, hnds, hne, hlen, hdig⟩ := patternMatch_some hm
      subst hfc
      subst hnds
      exact Or.inr ⟨c, ds, hsc, hu, hne, hlen, hdig⟩
  | nan => exact Or.inl rfl
  | float q => exact Or.inl rfl
  | int n => exact Or.inl rfl
  | none => exact Or.inl rfl

theorem pyFloat_digits {ds : List Char} (hne : ds ≠ []) (hdig : ∀ c ∈ ds, digit09 c = true) :
    pyFloatOfString (String.mk ds) = Option.some ((digitsVal ds : ℚ)) := by
  have hcond : (!(String.mk ds).data.isEmpty && (String.mk ds).data.all digit09) = true := by
    show (!ds.isEmpty && ds.all digit09) = true
    simp [List.all_eq_true, List.isEmpty_iff]
    exact ⟨hne, hdig⟩
  unfold pyFloatOfString
  rw [if_pos hcond]

theorem cellToFloat_cabin (v : PyVal) :
    cellToFloat (get_cabin_floor_and_number v).2 = Option.some (numFloat v) := by
  rcases get_cabin_cases v with h | ⟨c, ds, h, hu, hne, hlen, hdig⟩
  · unfold numFloat
    rw [h]
    rfl
  · unfold numFloat
    rw [h]
    show Option.map (fun q => PyVal.float q) (pyFloatOfString (String.mk ds)) =
      Option.some (PyVal.float ((digitsVal ds : ℚ)))
    rw [pyFloat_digits hne hdig]
    rfl

/-- C5: every floor that `get_cabin_floor_and_number` returns is the empty
string or a single uppercase letter, and every number is NaN or a digit string
of length 1 to 3 whose value is at most 999; hence, after the empty-string
replacement and the float cast of `main`, every `Floor` cell is NaN or a
single uppercase letter and every `CabinNumber` cell is NaN or an
integer-valued float in `[0, 999]`. -/
theorem cabin_feature_invariant (v : PyVal) :
    ((get_cabin_floor_and_number v).1 = PyVal.str "" ∨
      ∃ c, (get_cabin_floor_and_number v).1 = PyVal.str (String.mk [c]) ∧ upperAZ c = true) ∧
    ((get_cabin_floor_and_number v).2 = PyVal.nan ∨
      ∃ ds, (get_cabin_floor_and_number v).2 = PyVal.str (String.mk ds) ∧
        1 ≤ ds.length ∧ ds.length ≤ 3 ∧ (∀ c ∈ ds, digit09 c = true) ∧ digitsVal ds ≤ 999) ∧
    (replaceEmptyWithNaN (get_cabin_floor_and_number v).1 = PyVal.nan ∨
      ∃ c, replaceEmptyWithNaN (get_cabin_floor_and_number v).1 = PyVal.str (String.mk [c]) ∧
        upperAZ c = true) ∧
    (cellToFloat (get_cabin_floor_and_number v).2 = Option.some PyVal.nan ∨
      ∃ m : ℕ, m ≤ 999 ∧
        cellToFloat (get_cabin_floor_and_number v).2 = Option.some (PyVal.float (m : ℚ))) := by
  rcases get_cabin_cases v with h | ⟨c, ds, h, hu, hne, hlen, hdig⟩
  · exact ⟨Or.inl (by rw [h]), Or.inl (by rw [h]),
      Or.inl (by rw [h]; rfl), Or.inl (by rw [h]; rfl)⟩
  · have hlen1 : 1 ≤ ds.length := List.length_pos.mpr hne
    refine ⟨Or.inr ⟨c, by rw [h], hu⟩,
      Or.inr ⟨ds, by rw [h], hlen1, hlen, hdig, digitsVal_le_999 hdig hlen⟩,
      Or.inr ⟨c, ?_, hu⟩,
      Or.inr ⟨digitsVal ds, digitsVal_le_999 hdig hlen, ?_⟩⟩
    · rw [h]
      show replaceEmptyWithNaN (PyVal.str (String.mk [c])) = _
      unfold replaceEmptyWithNaN
      rw [if_neg]
      intro hh
      injection hh with h3
      exact List.noConfusion (congrArg String.data h3)
    · rw [h]
      show Option.map (fun q => PyVal.float q) (pyFloatOfString (String.mk ds)) =
        Option.some (PyVal.float ((digitsVal ds : ℚ)))
      rw [pyFloat_digits hne hdig]
      rfl

/-- C9: the float cast of the `CabinNumber` column cannot fail — on any column
produced row-wise by `get_cabin_floor_and_number` (each cell a digit string of
length 1 to 3 or NaN), `astype(float)` converts every cell, so the error
branch of the conversion is unreachable. -/
theorem cabin_number_cast_total (vs : List PyVal) :
    (vs.map (fun v => (get_cabin_floor_and_number v).2)).mapM cellToFloat =
      Option.some (vs.map numFloat) := by
  induction vs with
  | nil => rfl
  | cons v rest ih =>
    simp only [List.map_cons, List.mapM_cons, cellToFloat_cabin v, ih]
    rfl

theorem map_id_of_mem {l : List α} {f : α → α} (h : ∀ x ∈ l, f x = x) : l.map f = l :=
  (List.map_congr_left h).trans (List.map_id l)

theorem setCol_cols_of_absent {df : DataFrame} {name : String}
    (h : ∀ p ∈ df.cols, p.1 ≠ name) (vals : List PyVal) :
    (setCol df name vals).cols = df.cols ++ [(name, vals)] := by
  have hnot : ¬(df.cols.any (fun p => p.1 == name)) = true := by
    intro hany
    rw [List.any_eq_true] at hany
    obtain ⟨p, hp, hpe⟩ := hany
    exact h p hp (by simpa using hpe)
  unfold setCol
  rw [if_neg hnot]

theorem setCol_cols_of_present {df : DataFrame} {name : String}
    (h : df.cols.any (fun p => p.1 == name) = true) (vals : List PyVal) :
    (setCol df name vals).cols =
      df.cols.map (fun p => if p.1 == name then (name, vals) else p) := by
  unfold setCol
  rw [if_pos h]

theorem find?_filter {p q : α → Bool} (l : List α) (h : ∀ x, p x = true → q x = true) :
    (l.filter q).find? p = l.find? p := by
  induction l with
  | nil => rfl
  | cons a l ih =>
    by_cases hp : p a
    · rw [List.filter_cons_of_pos (h a hp), List.find?_cons_of_pos _ hp,
        List.find?_cons_of_pos _ hp]
    · by_cases hq : q a
      · rw [List.filter_cons_of_pos hq, List.find?_cons_of_neg _ hp,
          List.find?_cons_of_neg _ hp, ih]
      · rw [List.filter_cons_of_neg hq, List.find?_cons_of_neg _ hp, ih]

theorem hasCol_of_getCol {df : DataFrame} {name : String} {vals : List PyVal}
    (h : getCol df name = Option.some vals) : hasCol df name = true := by
  unfold getCol at h
  cases hf : df.cols.find? (fun p => p.1 == name) with
  | none =>
    rw [hf] at h
    exact absurd h (by simp)
  | some p =>
    have hmem := List.mem_of_find?_eq_some hf
    have hps := List.find?_some hf
    unfold hasCol
    rw [List.any_eq_true]
    exact ⟨p, hmem, hps⟩

theorem featureEngineer_cols {df : DataFrame} {cab : List PyVal}
    (hc : getCol df "Cabin" = Option.some cab) (hne : cab ≠ [])
    (hflr : ∀ p ∈ df.cols, p.1 ≠ "Floor") (hcnr : ∀ p ∈ df.cols, p.1 ≠ "CabinNumber")
    (ht : hasCol df "Ticket" = true) (hnm : hasCol df "Name" = true)
    (hpi : hasCol df "PassengerId" = true) :
    featureEngineer df = Option.some (DataFrame.mk
      (df.cols.filter
          (fun p => !((["Cabin", "Ticket", "Name", "PassengerId"] : List String).contains p.1)) ++
        [("Floor", cab.map (fun v => replaceEmptyWithNaN (get_cabin_floor_and_number v).1)),
         ("CabinNumber", cab.map numFloat)])) := by
  have hie : ¬(cab.isEmpty = true) := by simp [List.isEmpty_iff, hne]
  simp only [featureEngineer, hc]
  rw [if_neg hie]
  set F0 := List.map Prod.fst (List.map get_cabin_floor_and_number cab) with hF0
  set N0 := List.map Prod.snd (List.map get_cabin_floor_and_number cab) with hN0
  have e1 : (setCol df "Floor" F0).cols = df.cols ++ [("Floor", F0)] :=
    setCol_cols_of_absent hflr F0
  have hflr2 : ∀ p ∈ (setCol df "Floor" F0).cols, p.1 ≠ "CabinNumber" := by
    rw [e1]
    intro p hp
    rcases List.mem_append.mp hp with h1 | h1
    · exact hcnr p h1
    · rw [List.mem_singleton] at h1
      rw [h1]
      simp
  have e2 : (setCol (setCol df "Floor" F0) "CabinNumber" N0).cols
      = df.cols ++ [("Floor", F0), ("CabinNumber", N0)] := by
    rw [setCol_cols_of_absent hflr2 N0, e1, List.append_assoc]
    rfl
  have hdfn : df.cols.find? (fun p => p.1 == "CabinNumber") = Option.none :=
    List.find?_eq_none.mpr (fun x hx => by simp [hcnr x hx])
  have hACol : getCol (setCol (setCol df "Floor" F0) "CabinNumber" N0) "CabinNumber"
      = Option.some N0 := by
    unfold getCol
    rw [e2, List.find?_append, hdfn]
    rw [List.find?_cons_of_neg _ (by simp), List.find?_cons_of_pos _ (by simp)]
    rfl
  have hB : N0.mapM cellToFloat = Option.some (cab.map numFloat) := by
    have hN0e : N0 = cab.map (fun v => (get_cabin_floor_and_number v).2) := by
      rw [hN0, List.map_map]
      rfl
    rw [hN0e]
    exact cabin_number_cast_total cab
  rw [hACol]
  simp only [Option.getD_some]
  rw [hB]
  dsimp only
  have hpres : (setCol (setCol df "Floor" F0) "CabinNumber" N0).cols.any
      (fun p => p.1 == "CabinNumber") = true := by
    rw [e2]
    simp
  have e3 : (setCol (setCol (setCol df "Floor" F0) "CabinNumber" N0) "CabinNumber"
        (cab.map numFloat)).cols
      = df.cols ++ [("Floor", F0), ("CabinNumber", cab.map numFloat)] := by
    have hmapfix : df.cols.map
        (fun p => if p.1 == "CabinNumber" then ("CabinNumber", cab.map numFloat) else p)
        = df.cols := map_id_of_mem (fun x hx => by simp [hcnr x hx])
    rw [setCol_cols_of_present hpres, e2, List.map_append, hmapfix]
    simp
  have hdfn2 : df.cols.find? (fun p => p.1 == "Floor") = Option.none :=
    List.find?_eq_none.mpr (fun x hx => by simp [hflr x hx])
  have hCCol : getCol (setCol (setCol (setCol df "Floor" F0) "CabinNumber" N0) "CabinNumber"
        (cab.map numFloat)) "Floor" = Option.some F0 := by
    unfold getCol
    rw [e3, List.find?_append, hdfn2]
    rw [List.find?_cons_of_pos _ (by simp)]
    rfl
  rw [hCCol]
  simp only [Option.getD_some]
  have hpres2 : (setCol (setCol (setCol df "Floor" F0) "CabinNumber" N0) "CabinNumber"
      (cab.map numFloat)).cols.any (fun p => p.1 == "Floor") = true := by
    rw [e3]
    simp
  have e4 : (setCol (setCol (setCol (setCol df "Floor" F0) "CabinNumber" N0) "CabinNumber"
        (cab.map numFloat)) "Floor" (F0.map replaceEmptyWithNaN)).cols
      = df.cols ++ [("Floor", F0.map replaceEmptyWithNaN),
          ("CabinNumber", cab.map numFloat)] := by
    have hmapfix2 : df.cols.map
        (fun p => if p.1 == "Floor" then ("Floor", F0.map replaceEmptyWithNaN) else p)
        = df.cols := map_id_of_mem (fun x hx => by simp [hflr x hx])
    rw [setCol_cols_of_present hpres2, e3, List.map_append, hmapfix2]
    simp
  have hcab2 : df.cols.any (fun p => p.1 == "Cabin") = true := hasCol_of_getCol hc
  have hall : ∀ n ∈ (["Cabin", "Ticket", "Name", "PassengerId"] : List String),
      hasCol (setCol (setCol (setCol (setCol df "Floor" F0) "CabinNumber" N0) "CabinNumber"
        (cab.map numFloat)) "Floor" (F0.map replaceEmptyWithNaN)) n = true := by
    intro n hn
    unfold hasCol
    rw [e4, List.any_append, Bool.or_eq_true]
    left
    fin_cases hn
    · exact hcab2
    · exact ht
    · exact hnm
    · exact hpi
  unfold dropCols
  rw [if_pos (List.all_eq_true.mpr hall), e4, List.filter_append]
  have hkeep : ([("Floor", F0.map replaceEmptyWithNaN),
      ("CabinNumber", cab.map numFloat)] : List (String × List PyVal)).filter
        (fun p => !((["Cabin", "Ticket", "Name", "PassengerId"] : List String).contains p.1))
      = [("Floor", F0.map replaceEmptyWithNaN), ("CabinNumber", cab.map numFloat)] := by
    simp
  rw [hkeep]
  have hFmap : F0.map replaceEmptyWithNaN
      = cab.map (fun v => replaceEmptyWithNaN (get_cabin_floor_and_number v).1) := by
    rw [hF0, List.map_map, List.map_map]
    rfl
  rw [hFmap]

/-- Counterexample to C3 as stated: on a dataframe whose single `Cabin` cell is
NaN, the `Floor` column of the transformed dataframe holds NaN, while
`get_cabin_floor_and_number` returns the floor `""` there — the final `Floor`
column is not the raw row-wise image of `get_cabin_floor_and_number`, because
line 33 replaces empty strings with NaN. -/
theorem floor_replacement_counterexample :
    (featureEngineer (DataFrame.mk [("Cabin", [PyVal.nan]), ("Ticket", [PyVal.int 1]),
        ("Name", [PyVal.str "x"]), ("PassengerId", [PyVal.int 1]),
        ("Survived", [PyVal.int 0])])).bind (fun d => getCol d "Floor")
      = Option.some [PyVal.nan] ∧
    ([PyVal.nan].map (fun v => (get_cabin_floor_and_number v).1)) = [PyVal.str ""] ∧
    PyVal.nan ≠ PyVal.str "" := by
  exact ⟨by decide, by decide, by decide⟩

/-- C3 (amended): the feature-engineering step adds exactly the two columns
`Floor` (row-wise floors from `Cabin`, with empty strings replaced by NaN) and
`CabinNumber` (row-wise numbers from `Cabin`, cast to float), removes exactly
the columns `Cabin`, `Ticket`, `Name` and `PassengerId`, and leaves every
other column — and every row of the kept columns — unchanged. -/
theorem feature_engineering_frame {df : DataFrame} {cab : List PyVal}
    (hc : getCol df "Cabin" = Option.some cab) (hne : cab ≠ [])
    (hflr : ∀ p ∈ df.cols, p.1 ≠ "Floor") (hcnr : ∀ p ∈ df.cols, p.1 ≠ "CabinNumber")
    (ht : hasCol df "Ticket" = true) (hnm : hasCol df "Name" = true)
    (hpi : hasCol df "PassengerId" = true) :
    featureEngineer df = Option.some (engineeredSpec df cab) ∧
    getCol (engineeredSpec df cab) "Floor"
      = Option.some (cab.map (fun v => replaceEmptyWithNaN (get_cabin_floor_and_number v).1)) ∧
    getCol (engineeredSpec df cab) "CabinNumber" = Option.some (cab.map numFloat) ∧
    (∀ name, name ∉ (["Cabin", "Ticket", "Name", "PassengerId", "Floor", "CabinNumber"] :
        List String) → getCol (engineeredSpec df cab) name = getCol df name) ∧
    (∀ name ∈ (["Cabin", "Ticket", "Name", "PassengerId"] : List String),
      getCol (engineeredSpec df cab) name = Option.none) := by
  have hfilmem : ∀ x ∈ df.cols.filter
      (fun p => !((["Cabin", "Ticket", "Name", "PassengerId"] : List String).contains p.1)),
      x ∈ df.cols := fun x hx => (List.mem_filter.mp hx).1
  refine ⟨featureEngineer_cols hc hne hflr hcnr ht hnm hpi, ?_, ?_, ?_, ?_⟩
  · simp only [engineeredSpec, getCol]
    rw [List.find?_append]
    have h1 : (df.cols.filter
        (fun p => !((["Cabin", "Ticket", "Name", "PassengerId"] : List String).contains p.1))).find?
          (fun p => p.1 == "Floor") = Option.none :=
      List.find?_eq_none.mpr (fun x hx => by simp [hflr x (hfilmem x hx)])
    rw [h1, List.find?_cons_of_pos _ (by simp)]
    rfl
  · simp only [engineeredSpec, getCol]
    rw [List.find?_append]
    have h1 : (df.cols.filter
        (fun p => !((["Cabin", "Ticket", "Name", "PassengerId"] : List String).contains p.1))).find?
          (fun p => p.1 == "CabinNumber") = Option.none :=
      List.find?_eq_none.mpr (fun x hx => by simp [hcnr x (hfilmem x hx)])
    rw [h1, List.find?_cons_of_neg _ (by simp), List.find?_cons_of_pos _ (by simp)]
    rfl
  · intro name hmem
    simp only [List.mem_cons, List.not_mem_nil, or_false, not_or] at hmem
    obtain ⟨hnc, hnt, hnn, hnp, hnf, hncn⟩ := hmem
    simp only [engineeredSpec, getCol]
    rw [List.find?_append]
    have h1 : (df.cols.filter
        (fun p => !((["Cabin", "Ticket", "Name", "PassengerId"] : List String).contains p.1))).find?
          (fun p => p.1 == name)
        = df.cols.find? (fun p => p.1 == name) := by
      refine find?_filter df.cols (fun x hx => ?_)
      have hxe : x.1 = name := by simpa using hx
      simp [hxe, hnc, hnt, hnn, hnp]
    have h2 : ([("Floor", cab.map (fun v => replaceEmptyWithNaN (get_cabin_floor_and_number v).1)),
        ("CabinNumber", cab.map numFloat)] : List (String × List PyVal)).find?
          (fun p => p.1 == name) = Option.none := by
      refine List.find?_eq_none.mpr ?_
      intro x hx
      rcases List.mem_cons.mp hx with h3 | h3
      · rw [h3]
        simp
        intro h4
        exact hnf h4.symm
      · rw [List.mem_singleton] at h3
        rw [h3]
        simp
        intro h4
        exact hncn h4.symm
    rw [h1, h2, Option.or_none]
  · intro name hmem
    simp only [engineeredSpec, getCol]
    rw [List.find?_append]
    have h1 : (df.cols.filter
        (fun p => !((["Cabin", "Ticket", "Name", "PassengerId"] : List String).contains p.1))).find?
          (fun p => p.1 == name) = Option.none := by
      refine List.find?_eq_none.mpr ?_
      intro x hx
      have hq := (List.mem_filter.mp hx).2
      simp only [Bool.not_eq_true'] at hq
      intro hp
      have hxe : x.1 = name := by simpa using hp
      rw [List.contains_eq_any_beq] at hq
      fin_cases hmem <;> simp_all
    have h2 : ([("Floor", cab.map (fun v => replaceEmptyWithNaN (get_cabin_floor_and_number v).1)),
        ("CabinNumber", cab.map numFloat)] : List (String × List PyVal)).find?
          (fun p => p.1 == name) = Option.none := by
      refine List.find?_eq_none.mpr ?_
      intro x hx
      rcases List.mem_cons.mp hx with h3 | h3
      · rw [h3]
        fin_cases hmem <;> simp
      · rw [List.mem_singleton] at h3
        rw [h3]
        fin_cases hmem <;> simp
    rw [h1, h2]
    rfl

/-- Witness for the amended C3 at a concrete three-row dataframe. -/
theorem feature_engineering_frame_witness :
    featureEngineer (DataFrame.mk [("Survived", [PyVal.int 0, PyVal.int 1, PyVal.int 1]),
        ("Cabin", [PyVal.str "C85", PyVal.nan, PyVal.str "E46"]),
        ("Ticket", [PyVal.int 7, PyVal.int 8, PyVal.int 9]),
        ("Name", [PyVal.str "a", PyVal.str "b", PyVal.str "c"]),
        ("PassengerId", [PyVal.int 1, PyVal.int 2, PyVal.int 3])])
      = Option.some (engineeredSpec
          (DataFrame.mk [("Survived", [PyVal.int 0, PyVal.int 1, PyVal.int 1]),
            ("Cabin", [PyVal.str "C85", PyVal.nan, PyVal.str "E46"]),
            ("Ticket", [PyVal.int 7, PyVal.int 8, PyVal.int 9]),
            ("Name", [PyVal.str "a", PyVal.str "b", PyVal.str "c"]),
            ("PassengerId", [PyVal.int 1, PyVal.int 2, PyVal.int 3])])
          [PyVal.str "C85", PyVal.nan, PyVal.str "E46"]) :=
  (feature_engineering_frame (by decide) (by decide) (by decide) (by decide)
    (by decide) (by decide) (by decide)).1

theorem splitsAux_length (idxs : List ℕ) :
    ∀ (start : ℕ) (sizes : List ℕ), (splitsAux idxs start sizes).length = sizes.length := by
  intro start sizes
  induction sizes generalizing start with
  | nil => rfl
  | cons s rest ih => simp [splitsAux, ih]

theorem kfoldSplits_length (idxs : List ℕ) (k : ℕ) :
    (kfoldSplits idxs k).length = k := by
  unfold kfoldSplits
  rw [splitsAux_length]
  unfold foldSizes
  rw [List.length_map, List.length_range]

/-- C2: `main` performs k-fold cross-validation with exactly `k = 3` folds —
for each fold it trains on the fold's train indexes and queries the most
likely `Survived` state on the fold's test indexes, scoring the prediction
with `accuracy_score` against the true `Survived` column; the reported score
is the sum of the three per-fold accuracies divided by 3. -/
theorem cross_validation_three_folds {Net : Type} (fmt : ℚ → String) (lib : LibOps Net)
    (df : DataFrame) (perm : List ℕ) (surv : List PyVal)
    (hs : (featureEngineer df).bind (fun t => getCol t "Survived") = Option.some surv) :
    k_folds = 3 ∧ (kfoldSplits perm k_folds).length = 3 ∧
    (mainRun fmt lib df perm).map Prod.fst = Option.some
      ((foldAccuracyOf (predictOf lib) surv ((kfoldSplits perm k_folds).getD 0 ([], [])) +
        foldAccuracyOf (predictOf lib) surv ((kfoldSplits perm k_folds).getD 1 ([], [])) +
        foldAccuracyOf (predictOf lib) surv ((kfoldSplits perm k_folds).getD 2 ([], []))) /
        ((k_folds : ℕ) : ℚ)) := by
  refine ⟨rfl, kfoldSplits_length perm 3, ?_⟩
  cases hfe : featureEngineer df with
  | none =>
    rw [hfe] at hs
    exact absurd hs (by simp)
  | some t =>
    rw [hfe] at hs
    rw [Option.some_bind] at hs
    obtain ⟨a, b, c, hABC⟩ : ∃ a b c, kfoldSplits perm k_folds = [a, b, c] := ⟨_, _, _, rfl⟩
    simp only [mainRun, hfe, hs]
    rw [hABC]
    simp only [cvScore, List.foldl_cons, List.foldl_nil, List.getD_cons_zero,
      List.getD_cons_succ, Option.map_some']
    rw [zero_add]
    rfl

/-- Witness for C2 at a concrete one-row dataframe, a constant predictor and a
fixed shuffle. -/
theorem cross_validation_three_folds_witness :
    (mainRun (fun _ => "s")
        (LibOps.mk () () (fun _ _ => ()) (fun _ te => te.map (fun _ => PyVal.int 0)))
        (DataFrame.mk [("Survived", [PyVal.int 0]), ("Cabin", [PyVal.nan]),
          ("Ticket", [PyVal.int 1]), ("Name", [PyVal.str "a"]),
          ("PassengerId", [PyVal.int 1])])
        [0]).map Prod.fst = Option.some
      ((foldAccuracyOf
          (predictOf (LibOps.mk () () (fun _ _ => ()) (fun _ te => te.map (fun _ => PyVal.int 0))))
          [PyVal.int 0] ((kfoldSplits [0] k_folds).getD 0 ([], [])) +
        foldAccuracyOf
          (predictOf (LibOps.mk () () (fun _ _ => ()) (fun _ te => te.map (fun _ => PyVal.int 0))))
          [PyVal.int 0] ((kfoldSplits [0] k_folds).getD 1 ([], [])) +
        foldAccuracyOf
          (predictOf (LibOps.mk () () (fun _ _ => ()) (fun _ te => te.map (fun _ => PyVal.int 0))))
          [PyVal.int 0] ((kfoldSplits [0] k_folds).getD 2 ([], []))) /
        ((k_folds : ℕ) : ℚ)) :=
  (cross_validation_three_folds (fun _ => "s")
    (LibOps.mk () () (fun _ _ => ()) (fun _ te => te.map (fun _ => PyVal.int 0)))
    (DataFrame.mk [("Survived", [PyVal.int 0]), ("Cabin", [PyVal.nan]),
      ("Ticket", [PyVal.int 1]), ("Name", [PyVal.str "a"]),
      ("PassengerId", [PyVal.int 1])])
    [0] [PyVal.int 0] (by decide)).2.2

/-- C7: after the cross-validation loop, `main` emits exactly one log record,
at INFO level, whose text is the template `Average score was ... Baseline
accuracy is about 0.61.` filled with the accumulated score divided by the
number of folds. -/
theorem summary_log_single {Net : Type} (fmt : ℚ → String) (lib : LibOps Net)
    (df : DataFrame) (perm : List ℕ) (surv : List PyVal)
    (hs : (featureEngineer df).bind (fun t => getCol t "Survived") = Option.some surv) :
    (mainRun fmt lib df perm).map Prod.snd = Option.some
      [(Level.info,
        "Average score was " ++
          fmt (cvScore (predictOf lib) surv (kfoldSplits perm k_folds) / ((k_folds : ℕ) : ℚ)) ++
          ". Baseline accuracy is about 0.61.")] := by
  cases hfe : featureEngineer df with
  | none =>
    rw [hfe] at hs
    exact absurd hs (by simp)
  | some t =>
    rw [hfe] at hs
    rw [Option.some_bind] at hs
    simp only [mainRun, hfe, hs]
    rfl

/-- Witness for C7 at the same concrete dataframe, predictor and shuffle. -/
theorem summary_log_single_witness :
    (mainRun (fun _ => "s")
        (LibOps.mk () () (fun _ _ => ()) (fun _ te => te.map (fun _ => PyVal.int 0)))
        (DataFrame.mk [("Survived", [PyVal.int 0]), ("Cabin", [PyVal.nan]),
          ("Ticket", [PyVal.int 1]), ("Name", [PyVal.str "a"]),
          ("PassengerId", [PyVal.int 1])])
        [0]).map Prod.snd = Option.some
      [(Level.info,
        "Average score was " ++
          (fun _ => "s")
            (cvScore
              (predictOf
                (LibOps.mk () () (fun _ _ => ()) (fun _ te => te.map (fun _ => PyVal.int 0))))
              [PyVal.int 0] (kfoldSplits [0] k_folds) / ((k_folds : ℕ) : ℚ)) ++
          ". Baseline accuracy is about 0.61.")] :=
  summary_log_single (fun _ => "s")
    (LibOps.mk () () (fun _ _ => ()) (fun _ te => te.map (fun _ => PyVal.int 0)))
    (DataFrame.mk [("Survived", [PyVal.int 0]), ("Cabin", [PyVal.nan]),
      ("Ticket", [PyVal.int 1]), ("Name", [PyVal.str "a"]),
      ("PassengerId", [PyVal.int 1])])
    [0] [PyVal.int 0] (by decide)

/-- C8: the script implements no Bayesian-network algorithm of its own — its
entire observable behaviour (score and log output) depends on the bayespy
library only through the outputs of the train-and-query calls, so any two
library implementations whose per-fold query results agree make `main` behave
identically, whatever their network objects, templates or `AutoStructure`
results are. -/
theorem library_delegation {Net1 Net2 : Type} (lib1 : LibOps Net1) (lib2 : LibOps Net2)
    (fmt : ℚ → String) (df : DataFrame) (perm : List ℕ)
    (h : ∀ tr te, predictOf lib1 tr te = predictOf lib2 tr te) :
    mainRun fmt lib1 df perm = mainRun fmt lib2 df perm := by
  have hfun : predictOf lib1 = predictOf lib2 :=
    funext (fun tr => funext (fun te => h tr te))
  unfold mainRun
  rw [hfun]

/-- Witness for C8: two libraries over different network types (`Unit` and
`Bool`) with different internals but equal query outputs drive `main` to the
same result. -/
theorem library_delegation_witness :
    mainRun (fun _ => "s")
        (LibOps.mk () () (fun _ _ => ()) (fun _ te => te.map (fun _ => PyVal.int 0)))
        (DataFrame.mk [("Survived", [PyVal.int 0]), ("Cabin", [PyVal.nan]),
          ("Ticket", [PyVal.int 1]), ("Name", [PyVal.str "a"]),
          ("PassengerId", [PyVal.int 1])]) [0]
      = mainRun (fun _ => "s")
        (LibOps.mk true false (fun n _ => !n) (fun _ te => te.map (fun _ => PyVal.int 0)))
        (DataFrame.mk [("Survived", [PyVal.int 0]), ("Cabin", [PyVal.nan]),
          ("Ticket", [PyVal.int 1]), ("Name", [PyVal.str "a"]),
          ("PassengerId", [PyVal.int 1])]) [0] :=
  library_delegation
    (LibOps.mk () () (fun _ _ => ()) (fun _ te => te.map (fun _ => PyVal.int 0)))
    (LibOps.mk true false (fun n _ => !n) (fun _ te => te.map (fun _ => PyVal.int 0)))
    (fun _ => "s")
    (DataFrame.mk [("Survived", [PyVal.int 0]), ("Cabin", [PyVal.nan]),
      ("Ticket", [PyVal.int 1]), ("Name", [PyVal.str "a"]),
      ("PassengerId", [PyVal.int 1])]) [0]
    (fun _ _ => rfl)

theorem dropWhile_no_slash (tail : List Char) :
    ∀ xs : List Char, ('/' : Char) ∉ xs →
      List.dropWhile (fun c => decide (c ≠ '/')) (xs ++ '/' :: tail) = '/' :: tail := by
  intro xs hxs
  induction xs with
  | nil => simp [List.dropWhile_cons]
  | cons a l ih =>
    have ha : a ≠ '/' := fun hh => hxs (hh ▸ List.mem_cons_self a l)
    rw [List.cons_append, List.dropWhile_cons, if_pos (by simp [ha])]
    exact ih (fun hm => hxs (List.mem_cons_of_mem a hm))

theorem parent_dir_append {dir name : String} (h : ('/' : Char) ∉ name.data) :
    get_path_to_parent_dir (dir ++ "/" ++ name) = dir := by
  unfold get_path_to_parent_dir
  have hdata : (dir ++ "/" ++ name).data = dir.data ++ '/' :: name.data := by
    rw [String.data_append, String.data_append, List.append_assoc]
    rfl
  rw [hdata, List.reverse_append, List.reverse_cons, List.append_assoc,
    List.singleton_append]
  rw [dropWhile_no_slash dir.data.reverse name.data.reverse
    (fun hm => h (List.mem_reverse.mp hm))]
  show String.mk dir.data.reverse.reverse = dir
  rw [List.reverse_reverse]

/-- C6: `main` reads its CSV from the relative path `data/train.csv` inside
the directory containing the script file, and all subsequent processing
operates on the dataframe produced by that single read. -/
theorem csv_path_single_read {Net : Type} (dir name : String)
    (hn : ('/' : Char) ∉ name.data) (hd1 : dir.data ≠ []) (hd2 : lastIsSlash dir = false)
    (readCSV : String → DataFrame) (fmt : ℚ → String) (lib : LibOps Net) (perm : List ℕ) :
    mainCsvPath (dir ++ "/" ++ name) = dir ++ "/data/train.csv" ∧
    scriptMain readCSV (dir ++ "/" ++ name) fmt lib perm
      = mainRun fmt lib (readCSV (dir ++ "/data/train.csv")) perm := by
  have hcond1 : ¬(headIsSlash "data/train.csv" = true) := by decide
  have hcond2 : ¬((dir.data.isEmpty || lastIsSlash dir) = true) := by
    simp [List.isEmpty_iff, hd1, hd2]
  have hpath : mainCsvPath (dir ++ "/" ++ name) = dir ++ "/data/train.csv" := by
    unfold mainCsvPath joinPath
    rw [parent_dir_append hn, if_neg hcond1, if_neg hcond2, String.append_assoc]
    rfl
  exact ⟨hpath, by unfold scriptMain; rw [hpath]⟩

/-- Witness for C6 at a concrete script location. -/
theorem csv_path_single_read_witness :
    mainCsvPath ("/home/repo/examples/titanic" ++ "/" ++ "titanic_classification.py")
      = "/home/repo/examples/titanic" ++ "/data/train.csv" ∧
    scriptMain (fun _ => DataFrame.mk [])
        ("/home/repo/examples/titanic" ++ "/" ++ "titanic_classification.py")
        (fun _ => "s") (LibOps.mk () () (fun _ _ => ()) (fun _ _ => [])) []
      = mainRun (fun _ => "s") (LibOps.mk () () (fun _ _ => ()) (fun _ _ => []))
        ((fun _ => DataFrame.mk []) ("/home/repo/examples/titanic" ++ "/data/train.csv")) [] :=
  csv_path_single_read "/home/repo/examples/titanic" "titanic_classification.py"
    (by decide) (by decide) (by decide)
    (fun _ => DataFrame.mk []) (fun _ => "s")
    (LibOps.mk () () (fun _ _ => ()) (fun _ _ => [])) []

end Titanic
